import Mathlib

/-!
Verification development for the gold-price synchronization service
(`src/server.js`).  JavaScript numbers are embedded as `ℚ` (every value
arising in the program is produced by decimal parsing and field
arithmetic; the claims under study concern integer-rounded outputs and
qualitative control flow, which are insensitive to double rounding).
A JavaScript `NaN`/`undefined` value is embedded as `none` of an
`Option`.  Strings are processed as `List Char`, matching the
character-wise semantics of `split`, `replace`, `includes` and
`toUpperCase` on the ASCII identifiers the service handles.
-/

namespace GoldSync

/-- Does `pat` occur as a leading block of `l`?  (Character-wise
comparison, as JavaScript string search does.) -/
def startsWith : List Char → List Char → Bool
  | [], _ => true
  | _ :: _, [] => false
  | a :: as, b :: bs => a = b && startsWith as bs

/-- Embedding of JavaScript `String.prototype.includes`: does `pat`
occur contiguously anywhere in `l`? -/
def hasSub (pat : List Char) : List Char → Bool
  | [] => startsWith pat []
  | c :: rest => startsWith pat (c :: rest) || hasSub pat rest

/-- Embedding of JavaScript `s.replace(pat, "")`: remove the first
occurrence of `pat`, leave the string unchanged when absent. -/
def removeFirst (pat : List Char) : List Char → List Char
  | [] => []
  | c :: rest =>
    if startsWith pat (c :: rest) then (c :: rest).drop pat.length
    else c :: removeFirst pat rest

/-- Embedding of JavaScript `s.split("-")`: `""` splits to `[""]`,
adjacent delimiters produce empty tokens. -/
def splitOnDash : List Char → List (List Char)
  | [] => [[]]
  | c :: rest =>
    let r := splitOnDash rest
    if c = '-' then [] :: r
    else
      match r with
      | [] => [[c]]
      | t :: ts => (c :: t) :: ts

/-- Embedding of `String.prototype.toUpperCase` on the ASCII
identifiers the service processes. -/
def jsToUpper (s : List Char) : List Char := s.map Char.toUpper

/-- Numeric value of a block of decimal digit characters. -/
def digitsVal (ds : List Char) : ℕ :=
  ds.foldl (fun a c => a * 10 + (c.toNat - 48)) 0

/-- Consume one optional leading sign character. -/
def readSign : List Char → ℤ × List Char
  | '-' :: r => (-1, r)
  | '+' :: r => (1, r)
  | l => (1, l)

def isHexDigitC (c : Char) : Bool :=
  c.isDigit || (65 ≤ c.toNat && c.toNat ≤ 70) || (97 ≤ c.toNat && c.toNat ≤ 102)

def hexDigitVal (c : Char) : ℕ :=
  if c.isDigit then c.toNat - 48
  else if c.toNat ≤ 70 then c.toNat - 55
  else c.toNat - 87

def hexVal (ds : List Char) : ℕ :=
  ds.foldl (fun a c => a * 16 + hexDigitVal c) 0

/-- Embedding of JavaScript `parseInt(s)` (no radix argument): skip
whitespace, optional sign, `0x`/`0X` hexadecimal prefix, else the
longest block of decimal digits; `none` embeds the `NaN` result. -/
def jsParseInt (l : List Char) : Option ℤ :=
  let l1 := l.dropWhile Char.isWhitespace
  let sl := readSign l1
  match sl.2 with
  | '0' :: x :: r =>
    if x = 'x' ∨ x = 'X' then
      let ds := r.takeWhile isHexDigitC
      if ds = [] then none else some (sl.1 * hexVal ds)
    else
      let ds := sl.2.takeWhile Char.isDigit
      if ds = [] then none else some (sl.1 * digitsVal ds)
  | _ =>
    let ds := sl.2.takeWhile Char.isDigit
    if ds = [] then none else some (sl.1 * digitsVal ds)

/-- Embedding of JavaScript `parseFloat(s)`: skip whitespace, optional
sign, integer digits, optional fraction, optional exponent; `none`
embeds the `NaN` result.  (The case-sensitive `"Infinity"` literal is
not modelled: every call site first upper-cases its input, so the
literal can never match.) -/
def jsParseFloat (l : List Char) : Option ℚ :=
  let l1 := l.dropWhile Char.isWhitespace
  let sl := readSign l1
  let intDs := sl.2.takeWhile Char.isDigit
  let l2 := sl.2.dropWhile Char.isDigit
  let fracDs :=
    match l2 with
    | '.' :: r => r.takeWhile Char.isDigit
    | _ => []
  let l3 :=
    match l2 with
    | '.' :: r => r.dropWhile Char.isDigit
    | _ => l2
  if intDs = [] ∧ fracDs = [] then none
  else
    let expo : ℤ :=
      match l3 with
      | e :: r =>
        if e = 'e' ∨ e = 'E' then
          let es := readSign r
          let eds := es.2.takeWhile Char.isDigit
          if eds = [] then 0 else es.1 * digitsVal eds
        else 0
      | [] => 0
    let m : ℤ := sl.1 * (digitsVal intDs * 10 ^ fracDs.length + digitsVal fracDs)
    if 0 ≤ expo then
      some (Rat.divInt (m * 10 ^ expo.toNat) (10 ^ fracDs.length))
    else
      some (Rat.divInt m (10 ^ fracDs.length * 10 ^ (-expo).toNat))

/-- Embedding of JavaScript `Math.round`: round half toward positive
infinity, i.e. the floor of `x + 1/2` (stated executably via
`Rat.floor`; see `jsRound_eq_floor`). -/
def jsRound (x : ℚ) : ℤ := Rat.floor (x + 1 / 2)

/-- Result of `extractWeightAndPurity` (`src/server.js:38`). `none`
fields embed `NaN`. -/
structure ParsedAttributes where
  purity : Option ℤ
  weight : Option ℚ
deriving DecidableEq, Repr

/-- `extractWeightAndPurity` (`src/server.js:38-51`).  A `none`
argument embeds a null/undefined sku; the guard `!sku` also covers the
empty string.  The source wraps the body in try/catch, but no
operation in it can throw, so the catch arm is dead code. -/
def extractWeightAndPurity (sku : Option String) : ParsedAttributes :=
  match sku with
  | none => ⟨some 24, some 0⟩
  | some s =>
    if s.data = [] then ⟨some 24, some 0⟩
    else
      let parts := splitOnDash (jsToUpper s.data)
      let purityPart := parts.find? (fun p => hasSub ['K'] p)
      let purity :=
        match purityPart with
        | some pp => jsParseInt (removeFirst ['K'] pp)
        | none => some 24
      let weightPart := parts.find? (fun p => hasSub ['G'] p)
      let weight :=
        match weightPart with
        | some wp => jsParseFloat (removeFirst ['G'] wp)
        | none => some 0
      ⟨purity, weight⟩

def GRAMS_PER_OUNCE : ℚ := 311035 / 10000

/-- `convertOunceToGram` (`src/server.js:52-55`). -/
def convertOunceToGram (pricePerOunce : ℚ) : ℚ :=
  pricePerOunce / GRAMS_PER_OUNCE

/-- `getPurityFactor` (`src/server.js:56-64`): lookup in the object
literal `factors`; any key not present (including `NaN`) falls back to
`1.0` through `|| 1.0` (no listed factor is falsy). -/
def getPurityFactor (purity : Option ℤ) : ℚ :=
  match purity with
  | none => 1
  | some p =>
    if p = 24 then 1
    else if p = 22 then 916 / 1000
    else if p = 21 then 875 / 1000
    else if p = 18 then 750 / 1000
    else if p = 14 then 583 / 1000
    else 1

def MAKING_CHARGE_PERCENTAGE : ℚ := 10

def GST_PERCENTAGE : ℚ := 3

/-- Return record of `calculateFinalPrice` (`src/server.js:66-79`). -/
structure PriceBreakdown where
  baseGoldCost : ℤ
  makingCharge : ℤ
  gst : ℤ
  finalPrice : ℤ
deriving DecidableEq, Repr

/-- `calculateFinalPrice` (`src/server.js:66-79`). -/
def calculateFinalPrice (pricePerGram weight : ℚ) (purity : Option ℤ) :
    PriceBreakdown :=
  let purityFactor := getPurityFactor purity
  let baseGoldCost := pricePerGram * weight * purityFactor
  let makingCharge := baseGoldCost * (MAKING_CHARGE_PERCENTAGE / 100)
  let subtotal := baseGoldCost + makingCharge
  let gstAmt := subtotal * (GST_PERCENTAGE / 100)
  let finalPrice := jsRound (subtotal + gstAmt)
  { baseGoldCost := jsRound baseGoldCost
    makingCharge := jsRound makingCharge
    gst := jsRound gstAmt
    finalPrice := finalPrice }

/-- A catalog product as consumed by the sync loop
(`src/server.js:112-137`): only `id` and `sku` are read.  `sku = none`
embeds a null/undefined sku field. -/
structure Product where
  id : String
  sku : Option String
deriving DecidableEq, Repr

/-- Outcome of one iteration of the per-product loop
(`src/server.js:112-137`).  `skipped` covers the two `continue`
branches (no counter touched, no PUT attempted); `pushed` is a PUT that
succeeded (`updated++`); `failed` is a PUT that threw
(`errors++`). -/
inductive ItemOutcome where
  | skipped
  | pushed (id : String) (price : ℤ)
  | failed (id : String) (price : ℤ)
deriving DecidableEq, Repr

/-- The qualifying marker substring the sync loop requires in a sku
(`src/server.js:114`). -/
def goldKeyword : String := "GOLD"

/-- One iteration of the per-product loop (`src/server.js:112-137`).
`fails` is the environment oracle saying whether the PUT for a given
product id throws.  The guard `!product.sku` also skips an empty-string
sku; `!weight || weight <= 0` skips `NaN` (embedded `none`), `0` and
negative weights. -/
def processItem (pricePerGram : ℚ) (fails : String → Bool) (p : Product) :
    ItemOutcome :=
  match p.sku with
  | none => .skipped
  | some sku =>
    if sku.data = [] then .skipped
    else if ¬ hasSub goldKeyword.data (jsToUpper sku.data) then .skipped
    else
      let attrs := extractWeightAndPurity (some sku)
      match attrs.weight with
      | none => .skipped
      | some w =>
        if w = 0 ∨ w ≤ 0 then .skipped
        else
          let price :=
            (calculateFinalPrice pricePerGram w attrs.purity).finalPrice
          if fails p.id then .failed p.id price else .pushed p.id price

/-- The per-product loop (`src/server.js:112-137`) as a structural
recursion: returns `(updated, errors, outcomes)` where `updated` and
`errors` are the two counters and `outcomes` records every item's
result in order. -/
def runItems (pricePerGram : ℚ) (fails : String → Bool) :
    List Product → ℕ × ℕ × List ItemOutcome
  | [] => (0, 0, [])
  | p :: rest =>
    let o := processItem pricePerGram fails p
    let r := runItems pricePerGram fails rest
    match o with
    | .skipped => (r.1, r.2.1, o :: r.2.2)
    | .pushed _ _ => (r.1 + 1, r.2.1, o :: r.2.2)
    | .failed _ _ => (r.1, r.2.1 + 1, o :: r.2.2)

/-- The module-level mutable state (`src/server.js:28-30`).  Timestamps
are embedded as abstract natural numbers. -/
structure SyncState where
  lastGoldPrice : Option ℚ
  updateCount : ℕ
  lastUpdate : Option ℕ
deriving DecidableEq, Repr

/-- The quote-feed response body (`src/server.js:88`): the value of
`data.gold?.ask` and of `data.goldAsk`, each `none` when absent or
non-numeric. -/
structure FeedData where
  gold_ask : Option ℚ
  goldAsk : Option ℚ
deriving DecidableEq, Repr

/-- Embedding of `data.gold?.ask || data.goldAsk`: the left operand is
kept when truthy (present and nonzero), otherwise the right operand is
the result. -/
def jsOrOpt (a b : Option ℚ) : Option ℚ :=
  match a with
  | some v => if v = 0 then b else some v
  | none => b

/-- Environment of one sync cycle: `feed = none` embeds a quote fetch
that threw; `catalog = none` embeds a catalog fetch that threw;
`catalog = some none` a response without a `products` field (defaulted
to `[]` by `|| []`); `pushFails` says which product PUTs throw; `now`
is the wall-clock time stamped at FINALIZE. -/
structure CycleEnv where
  feed : Option FeedData
  catalog : Option (Option (List Product))
  pushFails : String → Bool
  now : ℕ

/-- Observable result of one sync cycle. -/
structure CycleResult where
  state : SyncState
  catalogFetched : Bool
  updated : ℕ
  errors : ℕ
  outcomes : List ItemOutcome
  finalized : Bool

/-- One run of `syncGoldPrices` (`src/server.js:81-155`) from state
`st` in environment `env`.  A thrown quote fetch lands in the
top-level catch with nothing mutated; a falsy extracted price
(`!goldPrice`) returns before `lastGoldPrice` is assigned; a thrown
catalog fetch lands in the top-level catch AFTER `lastGoldPrice` was
assigned on line 100; otherwise the loop runs and FINALIZE increments
`updateCount` and stamps `lastUpdate`. -/
def syncGoldPrices (st : SyncState) (env : CycleEnv) : CycleResult :=
  match env.feed with
  | none =>
    { state := st, catalogFetched := false, updated := 0, errors := 0
      outcomes := [], finalized := false }
  | some data =>
    match jsOrOpt data.gold_ask data.goldAsk with
    | none =>
      { state := st, catalogFetched := false, updated := 0, errors := 0
        outcomes := [], finalized := false }
    | some goldPrice =>
      if goldPrice = 0 then
        { state := st, catalogFetched := false, updated := 0, errors := 0
          outcomes := [], finalized := false }
      else
        let st1 : SyncState := { st with lastGoldPrice := some goldPrice }
        let pricePerGram := convertOunceToGram goldPrice
        match env.catalog with
        | none =>
          { state := st1, catalogFetched := true, updated := 0, errors := 0
            outcomes := [], finalized := false }
        | some productsField =>
          let products := productsField.getD []
          let r := runItems pricePerGram env.pushFails products
          { state := { st1 with
                        updateCount := st1.updateCount + 1
                        lastUpdate := some env.now }
            catalogFetched := true, updated := r.1, errors := r.2.1
            outcomes := r.2.2, finalized := true }

/-- Concrete identifiers and product ids used to instantiate the
theorems below on explicit inputs. -/
def skuScenario : String := "GOLD-22K-10G"

def skuGrade99 : String := "99K"

def skuMarked99 : String := "GOLD-99K-10G"

def skuPlain : String := "ABC"

def skuNoWeight : String := "RINX-22K"

def skuEligible : String := "10G-GOLD"

def idA : String := "a"

def idBad : String := "bad"

def idC : String := "c"

def idP1 : String := "p1"

/-- The purity grades enumerated in the `factors` table
(`src/server.js:57-63`). -/
def knownGrades : List ℤ := [24, 22, 21, 18, 14]

/-- The purity factors enumerated in the `factors` table, together
with the `|| 1.0` fallback value (`src/server.js:57-64`). -/
def knownPurityFactors : List ℚ :=
  [1, 916 / 1000, 875 / 1000, 750 / 1000, 583 / 1000]

theorem getPurityFactor_mem (p : Option ℤ) :
    getPurityFactor p ∈ knownPurityFactors := by
  rcases p with _ | z
  · simp [getPurityFactor, knownPurityFactors]
  · simp only [getPurityFactor, knownPurityFactors]
    split_ifs <;> simp

theorem getPurityFactor_nonneg (p : Option ℤ) : 0 ≤ getPurityFactor p := by
  have h := getPurityFactor_mem p
  simp only [knownPurityFactors, List.mem_cons, List.not_mem_nil, or_false] at h
  rcases h with h | h | h | h | h <;> rw [h] <;> norm_num

theorem jsRound_eq_floor (x : ℚ) : jsRound x = ⌊x + 1 / 2⌋ := by
  rw [jsRound, Rat.floor_def, Rat.floor_def']

theorem jsRound_mono {x y : ℚ} (h : x ≤ y) : jsRound x ≤ jsRound y := by
  rw [jsRound_eq_floor, jsRound_eq_floor]
  exact Int.floor_le_floor (by linarith)

theorem finalPrice_eq (pricePerGram weight : ℚ) (purity : Option ℤ) :
    (calculateFinalPrice pricePerGram weight purity).finalPrice =
      jsRound (pricePerGram * weight * getPurityFactor purity * (1133 / 1000)) := by
  simp only [calculateFinalPrice, MAKING_CHARGE_PERCENTAGE, GST_PERCENTAGE]
  congr 1
  ring

/-- Claim C5: `calculateFinalPrice` computes making charge and GST from
the unrounded intermediates and rounds `finalPrice` exactly once at the
end, so `finalPrice = round(base * 1.10 * 1.03)` with
`base = pricePerGram * weight * purityFactor`; the `baseGoldCost`,
`makingCharge` and `gst` fields are independently rounded copies of the
unrounded intermediates. -/
theorem calculateFinalPrice_rounding (pricePerGram weight : ℚ)
    (purity : Option ℤ) :
    (calculateFinalPrice pricePerGram weight purity).finalPrice =
      jsRound (pricePerGram * weight * getPurityFactor purity
        * (110 / 100) * (103 / 100)) ∧
    (calculateFinalPrice pricePerGram weight purity).baseGoldCost =
      jsRound (pricePerGram * weight * getPurityFactor purity) ∧
    (calculateFinalPrice pricePerGram weight purity).makingCharge =
      jsRound (pricePerGram * weight * getPurityFactor purity * (10 / 100)) ∧
    (calculateFinalPrice pricePerGram weight purity).gst =
      jsRound (pricePerGram * weight * getPurityFactor purity
        * (110 / 100) * (3 / 100)) := by
  refine ⟨?_, ?_, ?_, ?_⟩ <;>
    simp only [calculateFinalPrice, MAKING_CHARGE_PERCENTAGE, GST_PERCENTAGE] <;>
    congr 1 <;> ring

/-- Claim C7: holding purity fixed, `finalPrice` is monotonically
non-decreasing in the weight and in the per-gram price, for
non-negative inputs. -/
theorem finalPrice_monotone :
    (∀ (p w w' : ℚ) (pu : Option ℤ), 0 ≤ p → 0 ≤ w → w ≤ w' →
      (calculateFinalPrice p w pu).finalPrice ≤
        (calculateFinalPrice p w' pu).finalPrice) ∧
    (∀ (p p' w : ℚ) (pu : Option ℤ), 0 ≤ p → 0 ≤ w → p ≤ p' →
      (calculateFinalPrice p w pu).finalPrice ≤
        (calculateFinalPrice p' w pu).finalPrice) := by
  constructor
  · intro p w w' pu hp hw hww
    rw [finalPrice_eq, finalPrice_eq]
    apply jsRound_mono
    have hf := getPurityFactor_nonneg pu
    gcongr
  · intro p p' w pu hp hw hpp
    rw [finalPrice_eq, finalPrice_eq]
    apply jsRound_mono
    have hf := getPurityFactor_nonneg pu
    gcongr

/-- Claim C7 witness: instantiation of `finalPrice_monotone` at
concrete inputs. -/
theorem finalPrice_monotone_witness :
    (calculateFinalPrice 64 10 (some 22)).finalPrice ≤
      (calculateFinalPrice 64 12 (some 22)).finalPrice ∧
    (calculateFinalPrice 64 10 (some 22)).finalPrice ≤
      (calculateFinalPrice 65 10 (some 22)).finalPrice :=
  ⟨finalPrice_monotone.1 64 10 12 (some 22) (by norm_num) (by norm_num)
      (by norm_num),
    finalPrice_monotone.2 64 65 10 (some 22) (by norm_num) (by norm_num)
      (by norm_num)⟩

/-- Claim C6 counterexample: the identifier `"99K"` parses to purity
grade 99, which is neither in the known-grade table nor the default
24, refuting the invariant that `purityGrade` is always a known grade
or 24. -/
theorem purityGrade_counterexample :
    (extractWeightAndPurity (some skuGrade99)).purity = some 99 ∧
    (99 : ℤ) ∉ knownGrades ∧ (99 : ℤ) ≠ 24 := by decide

/-- Claim C6 amended: the parsed purity grade can be any integer (or
`NaN`); the invariant that does hold is that the purity factor used
for pricing is always one of the enumerated factors (unknown grades
fall back to `1.0`), and an identifier without a `K`-marked token
defaults to grade 24. -/
theorem purityFactor_invariant :
    (∀ sku : Option String,
      getPurityFactor (extractWeightAndPurity sku).purity ∈
        knownPurityFactors) ∧
    (∀ s : String,
      (splitOnDash (jsToUpper s.data)).find? (fun p => hasSub ['K'] p)
          = none →
      (extractWeightAndPurity (some s)).purity = some 24) := by
  constructor
  · intro sku
    exact getPurityFactor_mem _
  · intro s h
    by_cases hs : s.data = []
    · simp [extractWeightAndPurity, hs]
    · simp [extractWeightAndPurity, hs, h]

/-- Claim C6 amended witness: instantiation of `purityFactor_invariant`
at concrete identifiers. -/
theorem purityFactor_invariant_witness :
    getPurityFactor (extractWeightAndPurity (some skuMarked99)).purity ∈
      knownPurityFactors ∧
    (extractWeightAndPurity (some skuPlain)).purity = some 24 :=
  ⟨purityFactor_invariant.1 (some skuMarked99),
    purityFactor_invariant.2 skuPlain (by decide)⟩

/-- Claim C1: evaluation of the code at the spec's scenario.  For the
identifier `"GOLD-22K-10G"` the first `"-"`-token containing the
weight marker `G` is `"GOLD"` itself, so the parsed weight is
`parseFloat("OLD") = NaN` (embedded `none`), the item is skipped, and
no push is ever issued — for ANY push oracle.  Had the weight parsed
as 10 grams as the spec states, the final price from a 2000.00 quote
would indeed be 667, confirming the spec's arithmetic. -/
theorem goldSkuScenario_diverges :
    (extractWeightAndPurity (some skuScenario)).weight = none ∧
    (extractWeightAndPurity (some skuScenario)).purity = some 22 ∧
    (∀ (fails : String → Bool) (id : String),
      processItem (convertOunceToGram 2000) fails ⟨id, some skuScenario⟩
        = .skipped) ∧
    (calculateFinalPrice (convertOunceToGram 2000) 10 (some 22)).finalPrice
      = 667 := by
  refine ⟨by decide, by decide, fun fails id => rfl, ?_⟩
  simp only [calculateFinalPrice, jsRound_eq_floor, convertOunceToGram,
    GRAMS_PER_OUNCE, getPurityFactor, MAKING_CHARGE_PERCENTAGE,
    GST_PERCENTAGE]
  norm_num

/-- Claim C8: an identifier none of whose tokens contains the weight
marker `G` parses to weight 0, and the per-item loop skips such an
item without attempting a push. -/
theorem noWeightToken_noPush (s : String) (pricePerGram : ℚ)
    (fails : String → Bool) (id : String)
    (h : (splitOnDash (jsToUpper s.data)).find? (fun p => hasSub ['G'] p)
      = none) :
    (extractWeightAndPurity (some s)).weight = some 0 ∧
    processItem pricePerGram fails ⟨id, some s⟩ = .skipped := by
  by_cases hs : s.data = []
  · constructor
    · simp [extractWeightAndPurity, hs]
    · simp [processItem, hs]
  · have hw : (extractWeightAndPurity (some s)).weight = some 0 := by
      simp [extractWeightAndPurity, hs, h]
    refine ⟨hw, ?_⟩
    simp only [processItem, hs, if_neg]
    by_cases hg : hasSub goldKeyword.data (jsToUpper s.data)
    · simp [hg, hw]
    · simp [hg]

/-- Claim C8 witness: instantiation of `noWeightToken_noPush` at a
concrete identifier without any `G`-marked token. -/
theorem noWeightToken_noPush_witness :
    (extractWeightAndPurity (some skuNoWeight)).weight = some 0 ∧
    processItem 64 (fun _ => false) ⟨idP1, some skuNoWeight⟩ = .skipped :=
  noWeightToken_noPush skuNoWeight 64 (fun _ => false) idP1 (by decide)

/-- Claim C9: when the first `G`-containing token of an identifier
does not parse as a number after one `G` is removed (e.g. the token
`"GOLD"`), the parsed weight is `NaN` (embedded `none`) and the
per-item loop skips the item: no push is attempted and neither counter
moves. -/
theorem unparseableWeight_skipped (s : String) (pricePerGram : ℚ)
    (fails : String → Bool) (id : String) (w : List Char)
    (h : (splitOnDash (jsToUpper s.data)).find? (fun p => hasSub ['G'] p)
      = some w)
    (hw : jsParseFloat (removeFirst ['G'] w) = none) :
    (extractWeightAndPurity (some s)).weight = none ∧
    processItem pricePerGram fails ⟨id, some s⟩ = .skipped ∧
    ∀ rest : List Product,
      runItems pricePerGram fails (⟨id, some s⟩ :: rest) =
        ((runItems pricePerGram fails rest).1,
          (runItems pricePerGram fails rest).2.1,
          .skipped :: (runItems pricePerGram fails rest).2.2) := by
  by_cases hs : s.data = []
  · rw [hs] at h
    simp [splitOnDash, hasSub, startsWith] at h
  · have hwn : (extractWeightAndPurity (some s)).weight = none := by
      simp [extractWeightAndPurity, hs, h, hw]
    have hp : processItem pricePerGram fails ⟨id, some s⟩ = .skipped := by
      simp only [processItem, hs, if_neg]
      by_cases hg : hasSub goldKeyword.data (jsToUpper s.data)
      · simp [hg, hwn]
      · simp [hg]
    refine ⟨hwn, hp, ?_⟩
    intro rest
    simp [runItems, hp]

/-- Claim C9 witness: instantiation of `unparseableWeight_skipped` at
the canonical identifier `"GOLD-22K-10G"`, whose first `G`-containing
token is the literal `"GOLD"`. -/
theorem unparseableWeight_skipped_witness :
    (extractWeightAndPurity (some skuScenario)).weight = none ∧
    processItem 64 (fun _ => false) ⟨idP1, some skuScenario⟩
      = .skipped ∧
    ∀ rest : List Product,
      runItems 64 (fun _ => false) (⟨idP1, some skuScenario⟩ :: rest) =
        ((runItems 64 (fun _ => false) rest).1,
          (runItems 64 (fun _ => false) rest).2.1,
          .skipped :: (runItems 64 (fun _ => false) rest).2.2) :=
  unparseableWeight_skipped skuScenario 64 (fun _ => false) idP1
    goldKeyword.data (by decide) (by decide)

theorem runItems_append (ppg : ℚ) (fails : String → Bool)
    (l1 l2 : List Product) :
    runItems ppg fails (l1 ++ l2) =
      ((runItems ppg fails l1).1 + (runItems ppg fails l2).1,
        (runItems ppg fails l1).2.1 + (runItems ppg fails l2).2.1,
        (runItems ppg fails l1).2.2 ++ (runItems ppg fails l2).2.2) := by
  induction l1 with
  | nil => simp [runItems]
  | cons p rest ih =>
    simp only [List.cons_append, runItems]
    cases processItem ppg fails p <;>
      simp [Prod.ext_iff, ih] <;> omega

/-- Claim C3: a quote-feed response carrying neither a `gold.ask` nor
a `goldAsk` numeric value aborts the cycle immediately: no catalog
request is issued, no item is processed, and the state is untouched. -/
theorem missingQuote_aborts (st : SyncState) (env : CycleEnv)
    (d : FeedData) (hf : env.feed = some d) (h1 : d.gold_ask = none)
    (h2 : d.goldAsk = none) :
    syncGoldPrices st env =
      { state := st, catalogFetched := false, updated := 0, errors := 0,
        outcomes := [], finalized := false } := by
  simp [syncGoldPrices, hf, jsOrOpt, h1, h2]

/-- Claim C3 witness: instantiation of `missingQuote_aborts` at a
concrete environment. -/
theorem missingQuote_aborts_witness :
    syncGoldPrices ⟨none, 0, none⟩
        ⟨some ⟨none, none⟩, some (some []), fun _ => false, 5⟩ =
      { state := ⟨none, 0, none⟩, catalogFetched := false, updated := 0,
        errors := 0, outcomes := [], finalized := false } :=
  missingQuote_aborts ⟨none, 0, none⟩
    ⟨some ⟨none, none⟩, some (some []), fun _ => false, 5⟩
    ⟨none, none⟩ rfl rfl rfl

/-- Claim C10: an extracted gold price equal to `0` is falsy, so the
cycle aborts exactly as when the price is missing (no catalog request,
state untouched, not finalized); and when `gold.ask` is present but
equal to `0`, the `||` fallback yields the flat `goldAsk` field
instead. -/
theorem zeroQuote_aborts :
    (∀ (st : SyncState) (env : CycleEnv) (d : FeedData),
      env.feed = some d → jsOrOpt d.gold_ask d.goldAsk = some 0 →
      syncGoldPrices st env =
        { state := st, catalogFetched := false, updated := 0, errors := 0,
          outcomes := [], finalized := false }) ∧
    (∀ d : FeedData, d.gold_ask = some 0 →
      jsOrOpt d.gold_ask d.goldAsk = d.goldAsk) := by
  constructor
  · intro st env d hf hq
    simp [syncGoldPrices, hf, hq]
  · intro d h
    simp [jsOrOpt, h]

/-- Claim C10 witness: instantiation of `zeroQuote_aborts` at concrete
feed data with `gold.ask = 0` and `goldAsk = 0`. -/
theorem zeroQuote_aborts_witness :
    syncGoldPrices ⟨none, 0, none⟩
        ⟨some ⟨some 0, some 0⟩, some (some []), fun _ => false, 3⟩ =
      { state := ⟨none, 0, none⟩, catalogFetched := false, updated := 0,
        errors := 0, outcomes := [], finalized := false } ∧
    jsOrOpt (⟨some 0, some 0⟩ : FeedData).gold_ask
        (⟨some 0, some 0⟩ : FeedData).goldAsk =
      (⟨some 0, some 0⟩ : FeedData).goldAsk :=
  ⟨zeroQuote_aborts.1 ⟨none, 0, none⟩
      ⟨some ⟨some 0, some 0⟩, some (some []), fun _ => false, 3⟩
      ⟨some 0, some 0⟩ rfl (by decide),
    zeroQuote_aborts.2 ⟨some 0, some 0⟩ rfl⟩

/-- Claim C4 counterexample: a cycle that obtains a quote of 2000 and
then fails the catalog fetch aborts before FINALIZE, yet
`lastGoldPrice` has already been overwritten (on line 100, before the
catalog request) — so the three `SyncState` fields are NOT all mutated
solely in the FINALIZE step of a completed cycle. -/
theorem syncStateMutation_counterexample :
    (syncGoldPrices ⟨none, 0, none⟩
        ⟨some ⟨some 2000, none⟩, none, fun _ => false, 0⟩).finalized
      = false ∧
    (syncGoldPrices ⟨none, 0, none⟩
        ⟨some ⟨some 2000, none⟩, none, fun _ => false, 0⟩).catalogFetched
      = true ∧
    (syncGoldPrices ⟨none, 0, none⟩
        ⟨some ⟨some 2000, none⟩, none, fun _ => false, 0⟩).state.lastGoldPrice
      = some 2000 ∧
    (⟨none, 0, none⟩ : SyncState).lastGoldPrice = none := by decide

/-- Claim C4 amended: `updateCount` and `lastUpdate` are mutated
exactly once per completed cycle, in FINALIZE, and are untouched by an
aborted cycle; `lastGoldPrice`, however, is stored earlier, in the
FETCH_QUOTE step, as soon as a truthy price is extracted — even when
the cycle later aborts. -/
theorem syncStateMutation_amended (st : SyncState) (env : CycleEnv) :
    ((syncGoldPrices st env).finalized = false →
      (syncGoldPrices st env).state.updateCount = st.updateCount ∧
      (syncGoldPrices st env).state.lastUpdate = st.lastUpdate) ∧
    ((syncGoldPrices st env).finalized = true →
      (syncGoldPrices st env).state.updateCount = st.updateCount + 1 ∧
      (syncGoldPrices st env).state.lastUpdate = some env.now) ∧
    (∀ (d : FeedData) (gp : ℚ), env.feed = some d →
      jsOrOpt d.gold_ask d.goldAsk = some gp → gp ≠ 0 →
      (syncGoldPrices st env).state.lastGoldPrice = some gp) := by
  obtain ⟨feed, catalog, fails, now⟩ := env
  rcases feed with _ | d
  · refine ⟨by simp [syncGoldPrices], by simp [syncGoldPrices], ?_⟩
    intro d gp hd
    exact absurd hd (by simp)
  · rcases hq : jsOrOpt d.gold_ask d.goldAsk with _ | gp
    · refine ⟨by simp [syncGoldPrices, hq], by simp [syncGoldPrices, hq], ?_⟩
      intro d' gp' hd hq'
      injection hd with hd
      rw [← hd, hq] at hq'
      exact absurd hq' (by simp)
    · by_cases hz : gp = 0
      · subst hz
        refine ⟨by simp [syncGoldPrices, hq], by simp [syncGoldPrices, hq], ?_⟩
        intro d' gp' hd hq' hz'
        injection hd with hd
        rw [← hd, hq] at hq'
        injection hq' with hq'
        exact absurd hq'.symm hz'
      · have hlast : ∀ d' gp', some d = some d' →
            jsOrOpt d'.gold_ask d'.goldAsk = some gp' → gp' ≠ 0 →
            (syncGoldPrices st ⟨some d, catalog, fails, now⟩).state.lastGoldPrice
              = some gp' := by
          intro d' gp' hd hq' hz'
          injection hd with hd
          rw [← hd, hq] at hq'
          injection hq' with hq'
          rcases catalog with _ | pf <;>
            simp [syncGoldPrices, hq, hz, hq', hz']
        rcases catalog with _ | pf
        · exact ⟨by simp [syncGoldPrices, hq, hz], by simp [syncGoldPrices, hq, hz],
            hlast⟩
        · exact ⟨by simp [syncGoldPrices, hq, hz], by simp [syncGoldPrices, hq, hz],
            hlast⟩

/-- Claim C4 amended witness: instantiation of
`syncStateMutation_amended` at a completed concrete cycle. -/
theorem syncStateMutation_amended_witness :
    (syncGoldPrices ⟨none, 0, none⟩
        ⟨some ⟨some 2000, none⟩, some (some []), fun _ => false, 7⟩).state.updateCount
      = 0 + 1 ∧
    (syncGoldPrices ⟨none, 0, none⟩
        ⟨some ⟨some 2000, none⟩, some (some []), fun _ => false, 7⟩).state.lastUpdate
      = some 7 ∧
    (syncGoldPrices ⟨none, 0, none⟩
        ⟨some ⟨some 2000, none⟩, some (some []), fun _ => false, 7⟩).state.lastGoldPrice
      = some 2000 := by
  have h := syncStateMutation_amended ⟨none, 0, none⟩
    ⟨some ⟨some 2000, none⟩, some (some []), fun _ => false, 7⟩
  exact ⟨(h.2.1 rfl).1, (h.2.1 rfl).2,
    h.2.2 ⟨some 2000, none⟩ 2000 rfl (by decide) (by decide)⟩

/-- Claim C2: within one sync cycle, an item whose push throws (outcome
`failed`) contributes exactly one unit to the error counter and leaves
every preceding and following item's processing and counting
untouched: the cycle's counters and outcome list decompose into the
independent contributions of the prefix, the failing item, and the
suffix, and the cycle still reaches FINALIZE. -/
theorem perItemFailure_isolated (st : SyncState) (d : FeedData) (gp : ℚ)
    (fails : String → Bool) (now : ℕ) (pre suf : List Product)
    (p : Product) (i : String) (pr : ℤ)
    (hq : jsOrOpt d.gold_ask d.goldAsk = some gp) (hz : gp ≠ 0)
    (hp : processItem (convertOunceToGram gp) fails p = .failed i pr) :
    (syncGoldPrices st
        ⟨some d, some (some (pre ++ p :: suf)), fails, now⟩).errors
      = (runItems (convertOunceToGram gp) fails pre).2.1 + 1
        + (runItems (convertOunceToGram gp) fails suf).2.1 ∧
    (syncGoldPrices st
        ⟨some d, some (some (pre ++ p :: suf)), fails, now⟩).updated
      = (runItems (convertOunceToGram gp) fails pre).1
        + (runItems (convertOunceToGram gp) fails suf).1 ∧
    (syncGoldPrices st
        ⟨some d, some (some (pre ++ p :: suf)), fails, now⟩).outcomes
      = (runItems (convertOunceToGram gp) fails pre).2.2
        ++ ItemOutcome.failed i pr
          :: (runItems (convertOunceToGram gp) fails suf).2.2 ∧
    (syncGoldPrices st
        ⟨some d, some (some (pre ++ p :: suf)), fails, now⟩).finalized
      = true := by
  have hcons : runItems (convertOunceToGram gp) fails (p :: suf) =
      ((runItems (convertOunceToGram gp) fails suf).1,
        (runItems (convertOunceToGram gp) fails suf).2.1 + 1,
        ItemOutcome.failed i pr
          :: (runItems (convertOunceToGram gp) fails suf).2.2) := by
    simp [runItems, hp]
  have happ := runItems_append (convertOunceToGram gp) fails pre (p :: suf)
  rw [hcons] at happ
  refine ⟨?_, ?_, ?_, ?_⟩ <;>
    (simp [syncGoldPrices, hq, hz, happ]; try omega)

/-- Claim C2 witness: a three-item catalog whose middle item's push
throws; instantiation of `perItemFailure_isolated`. -/
theorem perItemFailure_isolated_witness :
    (syncGoldPrices ⟨none, 0, none⟩
        ⟨some ⟨some 2000, none⟩,
          some (some ([⟨idA, some skuEligible⟩]
            ++ ⟨idBad, some skuEligible⟩ :: [⟨idC, some skuEligible⟩])),
          fun i => i == idBad, 1⟩).errors
      = (runItems (convertOunceToGram 2000) (fun i => i == idBad)
          [⟨idA, some skuEligible⟩]).2.1 + 1
        + (runItems (convertOunceToGram 2000) (fun i => i == idBad)
            [⟨idC, some skuEligible⟩]).2.1 ∧
    (syncGoldPrices ⟨none, 0, none⟩
        ⟨some ⟨some 2000, none⟩,
          some (some ([⟨idA, some skuEligible⟩]
            ++ ⟨idBad, some skuEligible⟩ :: [⟨idC, some skuEligible⟩])),
          fun i => i == idBad, 1⟩).updated
      = (runItems (convertOunceToGram 2000) (fun i => i == idBad)
          [⟨idA, some skuEligible⟩]).1
        + (runItems (convertOunceToGram 2000) (fun i => i == idBad)
            [⟨idC, some skuEligible⟩]).1 ∧
    (syncGoldPrices ⟨none, 0, none⟩
        ⟨some ⟨some 2000, none⟩,
          some (some ([⟨idA, some skuEligible⟩]
            ++ ⟨idBad, some skuEligible⟩ :: [⟨idC, some skuEligible⟩])),
          fun i => i == idBad, 1⟩).outcomes
      = (runItems (convertOunceToGram 2000) (fun i => i == idBad)
          [⟨idA, some skuEligible⟩]).2.2
        ++ ItemOutcome.failed idBad
            (calculateFinalPrice (convertOunceToGram 2000) 10
              (some 24)).finalPrice
          :: (runItems (convertOunceToGram 2000) (fun i => i == idBad)
              [⟨idC, some skuEligible⟩]).2.2 ∧
    (syncGoldPrices ⟨none, 0, none⟩
        ⟨some ⟨some 2000, none⟩,
          some (some ([⟨idA, some skuEligible⟩]
            ++ ⟨idBad, some skuEligible⟩ :: [⟨idC, some skuEligible⟩])),
          fun i => i == idBad, 1⟩).finalized = true :=
  perItemFailure_isolated ⟨none, 0, none⟩ ⟨some 2000, none⟩ 2000
    (fun i => i == idBad) 1 [⟨idA, some skuEligible⟩]
    [⟨idC, some skuEligible⟩] ⟨idBad, some skuEligible⟩ idBad
    (calculateFinalPrice (convertOunceToGram 2000) 10 (some 24)).finalPrice
    (by decide) (by decide) rfl

end GoldSync
